import Mathlib

/-!
Verification of the TacoCat scoring bot core against its specification.

The development shallowly embeds the relevant source functions:

* the per-actor rate limiter `checkCanUpdate` (points module,
  `src/unnamed/part_000`, lines 220-276), split into its two database
  round-trips `readPhase` (the SELECT, together with the lazy INSERT of a
  fresh record) and `decideWrite` (the window test and the conditional
  counter UPDATE), exactly as the awaits separate them in the source;
* the score query `getScore` (same module, lines 196-218);
* the message-event dispatcher `handlers.message` together with
  `handleSelfPlus` and the hard-coded compensating decrement
  (`src/src/events.js`, lines 228-258);
* the reply composer `getRandomMessage` and its message pools
  (`src/src/messages.js`);
* the dual total/temp score store, which the dispatcher calls
  (`points.updateScore` returning a total/temp pair and
  `points.resetTempScores`) but whose implementation is not among the
  source files; it is modelled from the specification where noted.

Machine integers are modelled as `Int`/`Nat` (all quantities involved are
far below any overflow boundary), database rows as `Option` of a record
structure, and the JS `Math.random()` draws as explicit rational arguments
in `[0, 1)`.
-/

/-! ## Rate limiter (`checkCanUpdate`, src/unnamed/part_000 lines 220-276) -/

/-- One row of the `usertracker` table: `operations` performed in the
current window and `ts`, the window start in epoch seconds. -/
structure TrackerRecord where
  operations : Int
  ts : Int
deriving DecidableEq

/-- First database round-trip of `checkCanUpdate`: SELECT the row of the actor;
if there is none, INSERT `(user, 0, now)` and re-SELECT.  Returns the
observed row together with the table state after this phase. -/
def readPhase (now : Int) (s : Option TrackerRecord) :
    TrackerRecord × Option TrackerRecord :=
  match s with
  | none => (⟨0, now⟩, some ⟨0, now⟩)
  | some r => (r, some r)

/-- Second phase of `checkCanUpdate`, acting on the values `userOperations`
and `userTS` observed by `readPhase`: inside the current window it denies
when `operations >= MAX_OPS` and otherwise upserts
`operations := observed + 1` (the UPDATE arm leaves `ts` untouched);
once the window has expired it upserts `operations := 1, ts := now`.
Returns the decision and the table state after the write. -/
def decideWrite (maxOps now : Int) (obs : TrackerRecord)
    (s : Option TrackerRecord) : Bool × Option TrackerRecord :=
  if now - obs.ts < 3600 then
    if obs.operations ≥ maxOps then
      (false, s)
    else
      (true, match s with
        | some r => some ⟨obs.operations + 1, r.ts⟩
        | none => some ⟨1, obs.ts⟩)
  else
    (true, some ⟨1, now⟩)

/-- `checkCanUpdate(user)` run without interference: the two phases back to
back on the row of the actor. -/
def checkCanUpdate (maxOps now : Int) (s : Option TrackerRecord) :
    Bool × Option TrackerRecord :=
  let p := readPhase now s
  decideWrite maxOps now p.1 p.2

/-- Two overlapping `checkCanUpdate` calls for the same actor, interleaved
as read A, read B, write A, write B - an interleaving the source permits
because the SELECT and the UPDATE are separate awaited queries with no
transaction around them. -/
def interleavedBoth (maxOps now : Int) (s0 : Option TrackerRecord) :
    (Bool × Bool) × Option TrackerRecord :=
  let a := readPhase now s0
  let b := readPhase now a.2
  let wa := decideWrite maxOps now a.1 b.2
  let wb := decideWrite maxOps now b.1 wa.2
  ((wa.1, wb.1), wb.2)

/-- The call site `points.checkCanUpdate(userInit, quantity)`
(src/src/events.js line 48): the function signature declares only `user`,
so the quantity argument is dropped before the limiter runs. -/
def checkCanUpdateCall (_quantity : Nat) (maxOps now : Int)
    (s : Option TrackerRecord) : Bool × Option TrackerRecord :=
  checkCanUpdate maxOps now s

/-! ## Score store

The dispatcher (src/src/events.js) calls `points.updateScore(item,
operation, quantity)` expecting a `[total, temp]` pair and
`points.resetTempScores()`, but the points module among the source files
(src/unnamed/part_000) is an earlier single-score version that defines
neither; the dual-score store is therefore modelled from the
specification.  The single-score `getScore` that IS among the source
files (lines 196-218) is embedded as such below. -/

/-- A dual-score table: for each item, `(total, temp)` when a record
exists.  Modelled from the spec: spec section 3, ScoreRecord. -/
def ScoreStore : Type := String → Option (Int × Int)

/-- Modelled from the spec: `apply(item, polarity, magnitude)` of the
Score Store, the dual-score `updateScore` of the repository, which is not
among the source files.  Upserts the record, creating it with
`total = temp = 0` before applying the delta to both fields, and returns
the new store together with `(newTotal, newTemp)`. -/
def applyScore (st : ScoreStore) (item : String) (polarity : Int)
    (magnitude : Nat) : ScoreStore × (Int × Int) :=
  let rec0 := (st item).getD (0, 0)
  let t2 := rec0.1 + polarity * magnitude
  let e2 := rec0.2 + polarity * magnitude
  (fun i => if i = item then some (t2, e2) else st i, (t2, e2))

/-- Modelled from the spec: `resetTempScores()` (the `resetEra` of the
Score Store), called by the `reset` handler of the dispatcher
(src/src/events.js lines 106-110) but not among the source files.  Sets
`temp = 0` for every record and leaves `total` untouched. -/
def resetTempScores (st : ScoreStore) : ScoreStore :=
  fun i => (st i).map (fun p => (p.1, 0))

/-- Modelled from the spec: `query(item)` reads `(total, temp)`, treating
an absent record as the zero record it would create. -/
def queryScore (st : ScoreStore) (item : String) : Int × Int :=
  (st item).getD (0, 0)

/-- `n` sequential `(+1)` operations on `item`, each of magnitude 1. -/
def applyPlusN (item : String) : Nat → ScoreStore → ScoreStore
  | 0, st => st
  | n + 1, st => applyPlusN item n (applyScore st item 1 1).1

/-! ## `getScore` (src/unnamed/part_000 lines 196-218) -/

/-- The single-score `scores` table of the points module among the source
files: for each item, its integer score when a row exists. -/
def ScoresTable : Type := String → Option Int

/-- `getScore(item)` as written in src/unnamed/part_000 lines 196-218: it
creates the table if missing, SELECTs the row of the item, and reads
`dbSelect.rows[0].score`.  It never INSERTs, so for an absent item the
row list is empty and the read of `.score` on `rows[0]` fails; the
failure is modelled as `none`. -/
def getScore (table : ScoresTable) (item : String) : Option Int :=
  table item

/-! ## Message-event dispatcher (src/src/events.js lines 228-258)

`handlers.message` extracts a list of parsed entries
`{ item, quantity, cats }` from the message text and loops over them:
a falsy item or quantity aborts the handler with `false`; an entry whose
item equals the sender is handed to `handleSelfPlus` (which only sends a
reply - no points-module call); any other entry triggers
`handlePlusMinus(item, "+", quantity, ...)` and, when `cats > 0` and the
sender is exactly the hard-coded `ULJ7NNS8H`, a second
`handlePlusMinus(item, "-", cats, ...)`. -/

/-- Sign of a `handlePlusMinus` operation (the `+` or `-` argument). -/
inductive Polarity where
  | plus
  | minus
deriving DecidableEq

/-- The observable calls the message handler makes for one entry:
`selfPlus` is `handleSelfPlus` (reply only), `plusMinus` is
`handlePlusMinus` (rate-limit check, then score update on allow). -/
inductive DispatchAction where
  | selfPlus (user : String)
  | plusMinus (item : String) (pol : Polarity) (quantity : Nat)
deriving DecidableEq

/-- One element of `helpers.extractPlusMinusEventData(event.text)` as the
handler destructures it: `item` (absent models JS `undefined` or a falsy
empty string via `some ""`), `quantity` and `cats`. -/
structure ParsedEntry where
  item : Option String
  quantity : Nat
  cats : Nat
deriving DecidableEq

/-- The guard `if ( ! item || ! quantity ) return false;`: true when both
`item` and `quantity` are truthy. -/
def entryOK (e : ParsedEntry) : Bool :=
  (match e.item with
   | none => false
   | some s => !s.isEmpty) && !(e.quantity == 0)

/-- The calls made for a single (guard-passing) entry of the loop body in
`handlers.message`. -/
def dispatchEntry (user : String) (e : ParsedEntry) : List DispatchAction :=
  match e.item with
  | none => []
  | some it =>
    if it = user then
      [DispatchAction.selfPlus user]
    else
      DispatchAction.plusMinus it Polarity.plus e.quantity ::
        (if 0 < e.cats ∧ user = "ULJ7NNS8H" then
          [DispatchAction.plusMinus it Polarity.minus e.cats]
        else [])

/-- `handlers.message` over the parsed entries: returns the boolean
result of the handler together with the calls performed, in order.  The loop
returns `false` at the first guard-failing entry, keeping the calls
already made; completing the loop returns `true`. -/
def handlerMessage (user : String) : List ParsedEntry → Bool × List DispatchAction
  | [] => (true, [])
  | e :: rest =>
    if entryOK e then
      let r := handlerMessage user rest
      (r.1, dispatchEntry user e ++ r.2)
    else
      (false, [])

/-- The calls produced by a list of entries when every guard passes. -/
def actionsOf (user : String) : List ParsedEntry → List DispatchAction
  | [] => []
  | e :: es => dispatchEntry user e ++ actionsOf user es

/-- Whether an action mutates the Score Store: `handlePlusMinus` calls
`points.updateScore` (on allow); `handleSelfPlus` only sends a reply
(src/src/events.js lines 28-32). -/
def touchesScoreStore : DispatchAction → Bool
  | DispatchAction.selfPlus _ => false
  | DispatchAction.plusMinus _ _ _ => true

/-- Whether an action evaluates the rate limiter: `handlePlusMinus` calls
`points.checkCanUpdate`; `handleSelfPlus` does not. -/
def touchesRateLimiter : DispatchAction → Bool
  | DispatchAction.selfPlus _ => false
  | DispatchAction.plusMinus _ _ _ => true

/-! ## Message composer (src/src/messages.js)

`getRandomMessage` picks a weighted pool, then a string from the pool,
then substitutes placeholders.  The two `Math.random()` draws are
explicit rational arguments `r1, r2`, each in `[0, 1)` when produced by
the runtime. -/

/-- One weighted message pool (a `{ probability, set }` object). -/
structure MsgSet where
  probability : Nat
  set : List String
deriving DecidableEq

/-- The six operation kinds the message table is keyed by.  Modelled from
the spec: the operation-registry source file is not in the repository
snapshot; spec section 3 fixes the closed set of kinds. -/
inductive Op where
  | plus
  | minus
  | self
  | equal
  | random
  | reallyRandom
deriving DecidableEq

/-- Modelled from the spec: the registry display name for each kind,
used only inside thrown error strings. -/
def opName : Op → String
  | Op.plus => "plus"
  | Op.minus => "minus"
  | Op.self => "selfPlus"
  | Op.equal => "plusEqual"
  | Op.random => "random"
  | Op.reallyRandom => "reallyRandom"

/-- The `messages[operations.PLUS]` first pool (probability 100). -/
def plusSet : List String :=
  ["Congrats!",
   "Got it!",
   "Bravo.",
   "Nice work!",
   "Well done.",
   "Exquisite.",
   "Lovely.",
   "Superb.",
   "Classic!",
   "Oh well done.",
   "Charming.",
   "Noted.",
   "Well, well!",
   "Well played.",
   "Meow.",
   "Mmmmm...tacos.",
   "Delicious.",
   ":taconyancat:",
   ":businesscat:",
   ":smile_cat:",
   ":dance_pig:",
   ":dance-carrot:",
   ":dance-pickle:",
   ":doge_dance:",
   ":jalapeno_dance_pbj:",
   ":dancing_penguin:",
   ":burrito_dance:",
   ":mario_luigi_dance:",
   ":taco_dance:",
   "Om nom nom",
   "Aw yeah!",
   "Let\x27s taco \x27bout how awesome you are!",
   "If you don\x27t like tacos, I\x27m nacho type",
   "Purr-fect!",
   "Purr-ty good!",
   "You\x27ve gotta be kitten me!",
   ":smiley_cat:",
   ":heart_eyes_cat:",
   ":cookie: :cookie: COOOOKIES!!! Oh wait, sorry, wrong reference",
   "Was it a car or a cat I saw?",
   "A nut for a jar of tuna",
   "Never odd or even"]

/-- The `messages[operations.MINUS]` first pool. -/
def minusSet : List String :=
  ["Oh RLY?",
   "Oh, really?",
   "Oh :slightly_frowning_face:.",
   "I see.",
   "Ouch.",
   "Oh là là.",
   "Oh.",
   "Condolences.",
   ":smirk_cat:"]

/-- The `messages[operations.EQUAL]` first pool. -/
def equalSet : List String :=
  ["How is",
   "Why is"]

/-- The first pool shared (textually) by the SELF, RANDOM and
REALLYRANDOM entries of the message table. -/
def selfSet : List String :=
  ["Hahahahahahaha no.",
   "Nope.",
   "No. Just no.",
   "Not cool!"]

/-- The message table `messages` keyed by operation kind: each entry is a
probability-100 pool followed by the probability-1 `:shifty:` pool. -/
def messages : Op → List MsgSet
  | Op.plus => [⟨100, plusSet⟩, ⟨1, [":shifty:"]⟩]
  | Op.minus => [⟨100, minusSet⟩, ⟨1, [":shifty:"]⟩]
  | Op.equal => [⟨100, equalSet⟩, ⟨1, [":shifty:"]⟩]
  | Op.self => [⟨100, selfSet⟩, ⟨1, [":shifty:"]⟩]
  | Op.random => [⟨100, selfSet⟩, ⟨1, [":shifty:"]⟩]
  | Op.reallyRandom => [⟨100, selfSet⟩, ⟨1, [":shifty:"]⟩]

/-- The `switch (operation)` at the top of `getRandomMessage`: the format
string for the four supported kinds, `none` for the default arm that
throws. -/
def formatFor : Op → Option String
  | Op.minus => some "<message> *<item>* has <tempScore> :taco:<plural>. (<score> total)"
  | Op.plus => some "<message> *<item>* has <tempScore> :taco:<plural>. (<score> total)"
  | Op.self => some "<item> <message>"
  | Op.equal => some "<message> *<item>* currently at <score> :taco:<plural>."
  | Op.random => none
  | Op.reallyRandom => none

/-- `totalProbability`: the sum of the pools\x27 weights. -/
def totalWeight (pools : List MsgSet) : Nat :=
  (pools.map MsgSet.probability).sum

/-- The sum of the first `k` pool weights (for stating which pool the
draw lands in). -/
def cumWeight (pools : List MsgSet) (k : Nat) : Nat :=
  ((pools.take k).map MsgSet.probability).sum

/-- The pool-selection loop: starting from the draw `d`, subtract each
pool weight in turn and take the first pool that makes the running value
negative (`if (0 > setRandom)`); `none` models the `Could not find set`
throw after the loop. -/
def choosePool (d : Int) : List MsgSet → Option MsgSet
  | [] => none
  | p :: rest =>
    if d - p.probability < 0 then some p else choosePool (d - p.probability) rest

/-- The string-selection index:
`max = chosenSet.length - 1; random = Math.floor(Math.random() * max)`. -/
def pickIndex (len : Nat) (r : Rat) : Nat :=
  (⌊r * ((len - 1 : Nat) : Rat)⌋).toNat

/-- `chosenSet[random]`; the default stands for the JS `undefined` an
out-of-range index would give (never hit for in-range draws). -/
def pickMessage (set : List String) (r : Rat) : String :=
  set.getD (pickIndex set.length r) "undefined"

/-- Modelled from the spec: `helpers.isPlural` (helpers module not in the
snapshot) - plural exactly when the score is not 1. -/
def isPlural (score : Int) : Bool :=
  score ≠ 1

/-- Modelled from the spec: `helpers.maybeLinkItem` (helpers module not
in the snapshot) - a platform-user identity is rendered as a mention,
anything else as plain text. -/
def maybeLinkItem (item : String) : String :=
  if item.startsWith "U" then "<@" ++ item ++ ">" else item

/-- The placeholder substitutions at the end of `getRandomMessage`, in
source order.  Each placeholder occurs at most once in every format
string, so replace-all agrees with the JS first-occurrence `replace`. -/
def renderMessage (fm item : String) (score tempScore : Int)
    (message : String) : String :=
  ((((fm.replace "<item>" (maybeLinkItem item)).replace
      "<score>" (toString score)).replace
      "<tempScore>" (toString tempScore)).replace
      "<plural>" (if isPlural score then "s" else "")).replace
      "<message>" message

/-- `getRandomMessage(operation, item, score, tempScore)` with the two
`Math.random()` draws `r1` (pool) and `r2` (string) made explicit;
`Except.error` models the two `throw Error(...)` sites. -/
def getRandomMessage (operation : Op) (item : String)
    (score tempScore : Int) (r1 r2 : Rat) : Except String String :=
  let messageSets := messages operation
  match formatFor operation with
  | none => Except.error ("Invalid operation: " ++ opName operation)
  | some fm =>
    let setRandom : Int := ⌊r1 * (totalWeight messageSets : Rat)⌋
    match choosePool setRandom messageSets with
    | none => Except.error ("Could not find set for " ++ opName operation)
    | some chosen =>
      Except.ok (renderMessage fm item score tempScore (pickMessage chosen.set r2))

/-- Whether an `Except` is the error case (a thrown `Error`). -/
def isErr {ε α : Type} : Except ε α → Bool
  | Except.error _ => true
  | Except.ok _ => false

/-! ## Theorems -/

/-- C3: starting from a fresh actor with `MAX_OPS = 3`, four evaluations
whose clocks all lie within 3600 seconds of the first return allow, allow,
allow, deny, with the stored record evolving to `(3, t1)`; a fifth
evaluation at least 3600 seconds after the window start returns allow and
rewrites the record to count 1 with the current time as window start. -/
theorem checkCanUpdate_window_sequence (t1 t2 t3 t4 t5 : Int)
    (h2 : t2 - t1 < 3600) (h3 : t3 - t1 < 3600) (h4 : t4 - t1 < 3600)
    (h5 : t5 - t1 ≥ 3600) :
    checkCanUpdate 3 t1 none = (true, some ⟨1, t1⟩) ∧
    checkCanUpdate 3 t2 (some ⟨1, t1⟩) = (true, some ⟨2, t1⟩) ∧
    checkCanUpdate 3 t3 (some ⟨2, t1⟩) = (true, some ⟨3, t1⟩) ∧
    checkCanUpdate 3 t4 (some ⟨3, t1⟩) = (false, some ⟨3, t1⟩) ∧
    checkCanUpdate 3 t5 (some ⟨3, t1⟩) = (true, some ⟨1, t5⟩) := by
  refine ⟨?_, ?_, ?_, ?_, ?_⟩ <;>
    simp only [checkCanUpdate, readPhase, decideWrite] <;>
    split <;> first
      | rfl
      | omega

/-- Witness for `checkCanUpdate_window_sequence` at
`t1 = 0, t2 = t3 = t4 = 10, t5 = 3600`. -/
theorem checkCanUpdate_window_sequence_witness :
    checkCanUpdate 3 0 none = (true, some ⟨1, 0⟩) ∧
    checkCanUpdate 3 10 (some ⟨1, 0⟩) = (true, some ⟨2, 0⟩) ∧
    checkCanUpdate 3 10 (some ⟨2, 0⟩) = (true, some ⟨3, 0⟩) ∧
    checkCanUpdate 3 10 (some ⟨3, 0⟩) = (false, some ⟨3, 0⟩) ∧
    checkCanUpdate 3 3600 (some ⟨3, 0⟩) = (true, some ⟨1, 3600⟩) :=
  checkCanUpdate_window_sequence 0 10 10 10 3600
    (by decide) (by decide) (by decide) (by decide)

/-- C7: the limiter decision and the record it writes are the same
function of actor state and clock for any two magnitudes of the operation
being evaluated - the quantity passed at the call site never reaches the
limiter, so quota is consumed per operation, not per point. -/
theorem checkCanUpdate_ignores_magnitude (q1 q2 : Nat) (maxOps now : Int)
    (s : Option TrackerRecord) :
    checkCanUpdateCall q1 maxOps now s = checkCanUpdateCall q2 maxOps now s :=
  rfl

/-- Helper: once the record of the item exists with value `(t, e)`, `n` further
`(+1)` operations leave it at `(t + n, e + n)`. -/
theorem applyPlusN_of_some (item : String) (n : Nat) :
    ∀ (st : ScoreStore) (t e : Int), st item = some (t, e) →
      (applyPlusN item n st) item = some (t + n, e + n) := by
  induction n with
  | zero => intro st t e h; simpa using h
  | succ k ih =>
      intro st t e h
      have hstep : ((applyScore st item 1 1).1) item = some (t + 1, e + 1) := by
        simp [applyScore, h]
      have := ih _ _ _ hstep
      simpa [applyPlusN, add_assoc, add_comm, add_left_comm] using this

/-- C1: starting from a fresh item (no record), `n` sequential `(+1)`
operations make the item read as `total = temp = n`; a subsequent
`resetTempScores` makes it read `temp = 0` with `total = n` unchanged. -/
theorem applyPlusN_fresh_total_temp (st : ScoreStore) (item : String)
    (n : Nat) (hfresh : st item = none) :
    queryScore (applyPlusN item n st) item = ((n : Int), (n : Int)) ∧
    queryScore (resetTempScores (applyPlusN item n st)) item
      = ((n : Int), 0) := by
  cases n with
  | zero =>
      simp [applyPlusN, queryScore, resetTempScores, hfresh]
  | succ k =>
      have hstep : ((applyScore st item 1 1).1) item = some (1, 1) := by
        simp [applyScore, hfresh]
      have h := applyPlusN_of_some item k _ 1 1 hstep
      constructor
      · simp [applyPlusN, queryScore, h]
        omega
      · simp [applyPlusN, queryScore, resetTempScores, h]
        omega

/-- Witness for `applyPlusN_fresh_total_temp` on the empty store with
item `taco` and `n = 3`. -/
theorem applyPlusN_fresh_total_temp_witness :
    queryScore (applyPlusN "taco" 3 (fun _ => none)) "taco" = (3, 3) ∧
    queryScore (resetTempScores (applyPlusN "taco" 3 (fun _ => none)))
      "taco" = (3, 0) :=
  applyPlusN_fresh_total_temp (fun _ => none) "taco" 3 rfl

/-- C2 (code divergence): querying a never-scored item fails - on the
empty table `getScore` finds no row and the read of `rows[0].score`
faults - instead of creating the record with zeros and returning it. -/
theorem getScore_absent_fails :
    getScore (fun _ => none) "newthing" = none :=
  rfl

/-- C4: a guard-passing entry whose item equals the sender produces
exactly the self-target reply call, and none of the calls it produces
mutates the Score Store or evaluates the rate limiter. -/
theorem dispatchEntry_self_target (user : String) (e : ParsedEntry)
    (hitem : e.item = some user) (_hok : entryOK e = true) :
    dispatchEntry user e = [DispatchAction.selfPlus user] ∧
    ∀ a ∈ dispatchEntry user e,
      touchesScoreStore a = false ∧ touchesRateLimiter a = false := by
  have hd : dispatchEntry user e = [DispatchAction.selfPlus user] := by
    simp [dispatchEntry, hitem]
  refine ⟨hd, ?_⟩
  intro a ha
  rw [hd] at ha
  simp only [List.mem_singleton] at ha
  subst ha
  exact ⟨rfl, rfl⟩

/-- Witness for `dispatchEntry_self_target`: sender `U1BOTTER1` crediting
themselves with one taco. -/
theorem dispatchEntry_self_target_witness :
    dispatchEntry "U1BOTTER1" ⟨some "U1BOTTER1", 1, 0⟩
        = [DispatchAction.selfPlus "U1BOTTER1"] ∧
    ∀ a ∈ dispatchEntry "U1BOTTER1" ⟨some "U1BOTTER1", 1, 0⟩,
      touchesScoreStore a = false ∧ touchesRateLimiter a = false :=
  dispatchEntry_self_target "U1BOTTER1" ⟨some "U1BOTTER1", 1, 0⟩ rfl
    (by decide)

/-- C5 (counterexample): no configuration flag exists - the compensating
decrement is live for the hard-coded actor `ULJ7NNS8H`.  That actor
crediting `U0GOOSE01` one taco in a message carrying two penalty tokens
produces a `-` operation of magnitude 2. -/
theorem dispatchEntry_hardcoded_decrement :
    dispatchEntry "ULJ7NNS8H" ⟨some "U0GOOSE01", 1, 2⟩
      = [DispatchAction.plusMinus "U0GOOSE01" Polarity.plus 1,
         DispatchAction.plusMinus "U0GOOSE01" Polarity.minus 2] ∧
    DispatchAction.plusMinus "U0GOOSE01" Polarity.minus 2
      ∈ dispatchEntry "ULJ7NNS8H" ⟨some "U0GOOSE01", 1, 2⟩ := by
  decide

/-- C5 (amended): the compensating decrement is governed by a hard-coded
actor identity, not a configuration flag: a crediting entry for a target
other than the sender yields a compensating `-` call of magnitude `cats`
exactly when the sender is `ULJ7NNS8H` and the penalty-token count is
positive. -/
theorem dispatchEntry_decrement_iff (user : String) (e : ParsedEntry)
    (it : String) (hitem : e.item = some it) (hne : it ≠ user) :
    (DispatchAction.plusMinus it Polarity.minus e.cats
        ∈ dispatchEntry user e)
      ↔ (user = "ULJ7NNS8H" ∧ 0 < e.cats) := by
  simp only [dispatchEntry, hitem, if_neg hne]
  by_cases h : 0 < e.cats ∧ user = "ULJ7NNS8H"
  · simp [h, and_comm]
  · rw [if_neg h]
    simp only [List.mem_singleton]
    constructor
    · intro hmem
      cases hmem
    · intro hr
      exact absurd ⟨hr.2, hr.1⟩ h

/-- Witness for `dispatchEntry_decrement_iff`: the privileged sender with
a positive penalty-token count. -/
theorem dispatchEntry_decrement_iff_witness :
    (DispatchAction.plusMinus "U0GOOSE02" Polarity.minus 3
        ∈ dispatchEntry "ULJ7NNS8H" ⟨some "U0GOOSE02", 2, 3⟩)
      ↔ ("ULJ7NNS8H" = "ULJ7NNS8H" ∧ 0 < 3) :=
  dispatchEntry_decrement_iff "ULJ7NNS8H" ⟨some "U0GOOSE02", 2, 3⟩
    "U0GOOSE02" rfl (by decide)

/-- C9: the first guard-failing entry (falsy item or zero quantity) makes
the handler return `false` on the spot: entries before it have been
dispatched, and everything after it is dropped. -/
theorem handlerMessage_stops_at_bad (user : String)
    (pre post : List ParsedEntry) (bad : ParsedEntry)
    (hpre : ∀ e ∈ pre, entryOK e = true) (hbad : entryOK bad = false) :
    handlerMessage user (pre ++ bad :: post) = (false, actionsOf user pre) := by
  induction pre with
  | nil => simp [handlerMessage, hbad, actionsOf]
  | cons e es ih =>
      have he : entryOK e = true := hpre e (by simp)
      have ih2 := ih (fun x hx => hpre x (by simp [hx]))
      simp [handlerMessage, he, actionsOf, ih2]

/-- Witness for `handlerMessage_stops_at_bad`: a good entry for `U2`,
then an entry with a missing item, then a further entry that is
dropped. -/
theorem handlerMessage_stops_at_bad_witness :
    handlerMessage "U1" [⟨some "U2", 1, 0⟩, ⟨none, 1, 0⟩, ⟨some "U3", 2, 0⟩]
      = (false, actionsOf "U1" [⟨some "U2", 1, 0⟩]) :=
  handlerMessage_stops_at_bad "U1" [⟨some "U2", 1, 0⟩] [⟨some "U3", 2, 0⟩]
    ⟨none, 1, 0⟩ (by decide) (by decide)

/-- The running sum over a cons cell: taking `k + 1` weights from
`p :: rest` is the weight of `p` plus the first `k` weights of `rest`. -/
theorem cumWeight_cons_succ (p : MsgSet) (rest : List MsgSet) (k : Nat) :
    cumWeight (p :: rest) (k + 1) = p.probability + cumWeight rest k := by
  simp [cumWeight, List.take_succ_cons]

/-- Pool selection lands on the first pool whose cumulative weight
exceeds the draw: if the draw `d` sits between the cumulative weight of
the first `k` pools and that of the first `k + 1` pools, the loop picks
pool `k`. -/
theorem choosePool_eq_get (pools : List MsgSet) :
    ∀ (d : Int) (k : Nat) (hk : k < pools.length),
      (cumWeight pools k : Int) ≤ d → d < (cumWeight pools (k + 1) : Int) →
      choosePool d pools = some (pools.get ⟨k, hk⟩) := by
  induction pools with
  | nil =>
      intro d k hk
      exact absurd hk (by simp)
  | cons p rest ih =>
      intro d k hk hlo hhi
      cases k with
      | zero =>
          have h0 : cumWeight (p :: rest) 0 = 0 := by simp [cumWeight]
          have h1 : cumWeight (p :: rest) 1 = p.probability :=
            cumWeight_cons_succ p rest 0 |>.trans (by simp [cumWeight])
          rw [h1] at hhi
          have hneg : d - (p.probability : Int) < 0 := by omega
          simp [choosePool, hneg]
      | succ k2 =>
          rw [cumWeight_cons_succ] at hlo hhi
          have hrest : (0 : Int) ≤ (cumWeight rest k2 : Int) := by positivity
          have hpos : ¬ (d - (p.probability : Int) < 0) := by push_cast at hlo ⊢; omega
          have hk2 : k2 < rest.length := by simpa using hk
          have := ih (d - p.probability) k2 hk2
            (by push_cast at hlo ⊢; omega) (by push_cast at hhi ⊢; omega)
          simpa [choosePool, hpos] using this

/-- The string draw `Math.floor(r * (len - 1))` for a pool of `len ≥ 2`
strings and `r ∈ [0, 1)`: it never reaches the last index, and it equals
`i` exactly on the draw interval `[i/(len-1), (i+1)/(len-1))` - the
intervals all have width `1/(len-1)`, so the first `len - 1` strings are
equally likely and the last has probability zero. -/
theorem pickIndex_spec (len : Nat) (r : Rat) (i : Nat) (hlen : 2 ≤ len)
    (h0 : 0 ≤ r) (h1 : r < 1) :
    pickIndex len r < len - 1 ∧
      (pickIndex len r = i ↔
        (i : Rat) / ((len - 1 : Nat) : Rat) ≤ r ∧
          r < ((i : Rat) + 1) / ((len - 1 : Nat) : Rat)) := by
  have hL1 : 1 ≤ len - 1 := by omega
  have hLpos : (0 : Rat) < ((len - 1 : Nat) : Rat) := by
    exact_mod_cast Nat.lt_of_lt_of_le Nat.zero_lt_one hL1
  have hprod0 : (0 : Rat) ≤ r * ((len - 1 : Nat) : Rat) :=
    mul_nonneg h0 hLpos.le
  have hfl0 : (0 : Int) ≤ ⌊r * ((len - 1 : Nat) : Rat)⌋ :=
    Int.floor_nonneg.mpr hprod0
  have hflt : ⌊r * ((len - 1 : Nat) : Rat)⌋ < ((len - 1 : Nat) : Int) := by
    rw [Int.floor_lt]
    have hstep : r * ((len - 1 : Nat) : Rat) < 1 * ((len - 1 : Nat) : Rat) :=
      mul_lt_mul_of_pos_right h1 hLpos
    simpa using hstep
  constructor
  · unfold pickIndex
    omega
  · have hcast : (pickIndex len r = i) ↔
        (⌊r * ((len - 1 : Nat) : Rat)⌋ = (i : Int)) := by
      unfold pickIndex
      omega
    rw [hcast, Int.floor_eq_iff]
    rw [div_le_iff₀ hLpos, lt_div_iff₀ hLpos]
    push_cast
    constructor
    · exact fun h => ⟨h.1, h.2⟩
    · exact fun h => ⟨h.1, h.2⟩

/-- For the uniform two-pool shape of the table (weights 100 and 1), every
draw in `[0, 101)` lands in some pool. -/
theorem choosePool_std (s1 s2 : List String) (d : Int) (h0 : 0 ≤ d)
    (h1 : d < 101) :
    ∃ c, choosePool d [⟨100, s1⟩, ⟨1, s2⟩] = some c := by
  by_cases hd : d < 100
  · exact ⟨_, choosePool_eq_get [⟨100, s1⟩, ⟨1, s2⟩] d 0 (by norm_num)
      (by simp [cumWeight]; omega) (by simp [cumWeight]; omega)⟩
  · exact ⟨_, choosePool_eq_get [⟨100, s1⟩, ⟨1, s2⟩] d 1 (by norm_num)
      (by simp [cumWeight]; omega) (by simp [cumWeight]; omega)⟩

/-- For a supported operation whose pools have the standard two-pool
shape, `getRandomMessage` succeeds for every pool draw in `[0, 1)`. -/
theorem getRandomMessage_ok_of_std (op : Op) (fm : String)
    (hfm : formatFor op = some fm) (s1 s2 : List String)
    (hmsg : messages op = [⟨100, s1⟩, ⟨1, s2⟩]) (item : String)
    (score tempScore : Int) (r1 r2 : Rat) (h0 : 0 ≤ r1) (h1 : r1 < 1) :
    isErr (getRandomMessage op item score tempScore r1 r2) = false := by
  have htot : (totalWeight (messages op) : Rat) = 101 := by
    rw [hmsg]
    norm_num [totalWeight]
  have hd0 : (0 : Int) ≤ ⌊r1 * (totalWeight (messages op) : Rat)⌋ := by
    apply Int.floor_nonneg.mpr
    rw [htot]
    positivity
  have hd1 : ⌊r1 * (totalWeight (messages op) : Rat)⌋ < 101 := by
    rw [htot, Int.floor_lt]
    push_cast
    nlinarith
  obtain ⟨c, hc⟩ :=
    choosePool_std s1 s2 (⌊r1 * (totalWeight (messages op) : Rat)⌋) hd0 hd1
  rw [← hmsg] at hc
  simp [getRandomMessage, hfm, hc, isErr]

/-- C10: with in-range draws, `getRandomMessage` throws exactly for the
`random` and `really random` kinds - the `switch` default - and never
for the four supported kinds; the table nevertheless defines non-empty
pools for both unsupported kinds. -/
theorem getRandomMessage_error_iff :
    (∀ (op : Op) (item : String) (score tempScore : Int) (r1 r2 : Rat),
        0 ≤ r1 → r1 < 1 →
        (isErr (getRandomMessage op item score tempScore r1 r2) = true ↔
          (op = Op.random ∨ op = Op.reallyRandom)))
    ∧ messages Op.random ≠ [] ∧ messages Op.reallyRandom ≠ [] := by
  refine ⟨?_, by simp [messages], by simp [messages]⟩
  intro op item score tempScore r1 r2 h0 h1
  cases op with
  | random => simp [getRandomMessage, formatFor, isErr]
  | reallyRandom => simp [getRandomMessage, formatFor, isErr]
  | plus =>
      rw [getRandomMessage_ok_of_std Op.plus _ rfl plusSet [":shifty:"] rfl
        item score tempScore r1 r2 h0 h1]
      simp
  | minus =>
      rw [getRandomMessage_ok_of_std Op.minus _ rfl minusSet [":shifty:"] rfl
        item score tempScore r1 r2 h0 h1]
      simp
  | self =>
      rw [getRandomMessage_ok_of_std Op.self _ rfl selfSet [":shifty:"] rfl
        item score tempScore r1 r2 h0 h1]
      simp
  | equal =>
      rw [getRandomMessage_ok_of_std Op.equal _ rfl equalSet [":shifty:"] rfl
        item score tempScore r1 r2 h0 h1]
      simp

/-- Witness for `getRandomMessage_error_iff`: at draws `r1 = r2 = 0` the
`random` kind throws and the `plus` kind does not. -/
theorem getRandomMessage_error_iff_witness :
    isErr (getRandomMessage Op.random "tacofan" 1 1 0 0) = true ∧
    isErr (getRandomMessage Op.plus "tacofan" 1 1 0 0) = false := by
  constructor
  · exact (getRandomMessage_error_iff.1 Op.random "tacofan" 1 1 0 0
      (by norm_num) (by norm_num)).mpr (Or.inl rfl)
  · have h := getRandomMessage_error_iff.1 Op.plus "tacofan" 1 1 0 0
      (by norm_num) (by norm_num)
    simp only [reduceCtorEq, or_self, iff_false] at h
    exact Bool.not_eq_true _ |>.mp h

/-- C6 (counterexample): the last string of the 42-string `plus` pool,
`Never odd or even`, is never produced: for every in-range string draw
the selected index stays below 41. -/
theorem pickMessage_last_unreachable :
    ¬ ∃ r : Rat, 0 ≤ r ∧ r < 1 ∧
      pickMessage plusSet r = "Never odd or even" := by
  rintro ⟨r, h0, h1, heq⟩
  obtain ⟨hlt, -⟩ := pickIndex_spec 42 r 0 (by norm_num) h0 h1
  have hall : ∀ n : Nat, n < 41 →
      plusSet.getD n "undefined" ≠ "Never odd or even" := by decide
  have hL : plusSet.length = 42 := rfl
  rw [pickMessage, hL] at heq
  exact hall _ (by omega) heq

/-- C6 (amended): the composer picks the pool exactly as specified - the
first pool whose cumulative weight exceeds the uniform draw - but the
string draw is uniform over all but the last string: for a pool of
`len ≥ 2` strings each of the first `len - 1` indices is hit on a draw
interval of width `1/(len-1)` while the last index is never hit. -/
theorem getRandomMessage_pool_and_string_selection :
    (∀ (pools : List MsgSet) (d : Int) (k : Nat) (hk : k < pools.length),
        (cumWeight pools k : Int) ≤ d → d < (cumWeight pools (k + 1) : Int) →
        choosePool d pools = some (pools.get ⟨k, hk⟩))
    ∧ (∀ (len : Nat) (r : Rat) (i : Nat), 2 ≤ len → 0 ≤ r → r < 1 →
        pickIndex len r < len - 1 ∧
          (pickIndex len r = i ↔
            (i : Rat) / ((len - 1 : Nat) : Rat) ≤ r ∧
              r < ((i : Rat) + 1) / ((len - 1 : Nat) : Rat))) :=
  ⟨fun pools d k hk hlo hhi => choosePool_eq_get pools d k hk hlo hhi,
   fun len r i hlen h0 h1 => pickIndex_spec len r i hlen h0 h1⟩

/-- Witness for `getRandomMessage_pool_and_string_selection`: the draw
`d = 100` selects the second (`:shifty:`) pool of the `plus` entry, and
for a 3-string pool the draw `r = 0` selects index 0, inside `[0, 1/2)`,
never index 2. -/
theorem getRandomMessage_pool_and_string_selection_witness :
    choosePool 100 (messages Op.plus)
        = some ((messages Op.plus).get ⟨1, by norm_num [messages]⟩) ∧
    (pickIndex 3 0 < 2 ∧
      (pickIndex 3 0 = 0 ↔
        (0 : Rat) / ((2 : Nat) : Rat) ≤ 0 ∧
          (0 : Rat) < ((0 : Rat) + 1) / ((2 : Nat) : Rat))) := by
  constructor
  · exact getRandomMessage_pool_and_string_selection.1 (messages Op.plus)
      100 1 (by norm_num [messages])
      (by norm_num [messages, cumWeight, plusSet])
      (by norm_num [messages, cumWeight, plusSet])
  · exact getRandomMessage_pool_and_string_selection.2 3 0 0
      (by norm_num) (by norm_num) (by norm_num)

/-- C8: the check-and-increment is not atomic.  With `MAX_OPS = 3` and the
record of the actor at `(2, 0)` - exactly one slot left - two calls interleaved
read/read/write/write at `now = 10` are BOTH allowed, whereas the same two
calls run back to back allow the first and deny the second. -/
theorem checkCanUpdate_race_both_allowed :
    (interleavedBoth 3 10 (some ⟨2, 0⟩)).1 = (true, true) ∧
    (checkCanUpdate 3 10 (some ⟨2, 0⟩)).1 = true ∧
    (checkCanUpdate 3 10 (checkCanUpdate 3 10 (some ⟨2, 0⟩)).2).1 = false := by
  decide

